import Mathlib

/-!
# BentWookie request-lifecycle engine: a shallow embedding

This file embeds the core of the BentWookie work-queue orchestrator in Lean 4
and proves properties of its request-lifecycle engine.

The embedding follows the Python sources:
* `src/bentwookie/constants.py`   — phase tables and scheduling constants
* `src/bentwookie/db/queries.py`  — the Entity Store (SQL CRUD over row lists)
* `src/bentwookie/loop/phases.py` — the Phase Engine (`get_next_phase`,
  `is_local_only`)
* `src/bentwookie/loop/processor.py` — request processing, test-retry control,
  rate-limit classification and bug-fix escalation

SQL tables become lists of row structures; every `UPDATE ... WHERE id = ?`
becomes a `List.map` guarded on the key, every `DELETE` a `List.filter`, every
`SELECT ... WHERE id = ?` a `List.find?`.  Timestamps are naturals; each
mutating operation takes the current time `now` where the source calls
`datetime.now()`.  The repository ships no `schema.sql` under `src/`, so column
sets of the row structures are modelled from the spec's data model (§3/§6)
where they are not determined by the queries themselves; such spots are marked
`Modelled from the spec:` in the doc comments.
-/

/-- `charListStartsWith l sub` — `sub` is a prefix of `l` (character lists). -/
def charListStartsWith : List Char → List Char → Bool
  | _, [] => true
  | [], _ :: _ => false
  | c :: cs, d :: ds => c == d && charListStartsWith cs ds

/-- `charListContains l sub` — `sub` occurs as a contiguous run inside `l`. -/
def charListContains : List Char → List Char → Bool
  | [], sub => sub.isEmpty
  | c :: cs, sub => charListStartsWith (c :: cs) sub || charListContains cs sub

/-- Python's substring test `sub in s`, on Lean strings. -/
def strContains (s sub : String) : Bool :=
  charListContains s.toList sub.toList

/-- Python's `str.lower()` (over the ASCII range relevant here), written via
the character list so that it evaluates inside the kernel. -/
def strToLower (s : String) : String :=
  String.mk (s.data.map Char.toLower)

/-! ## Data model (tables as row lists)

Column sets follow the spec's §3 data model; `schema.sql` is not under `src/`.
-/

/-- A row of the `project` table.  `prjcommitenabled` (the project-level
commit-phase override: absent / 0 = disabled / 1 = enabled) is Modelled from
the spec: the spec's §3 gives the project an "optional commit-phase override",
and the CLI passes `prjcommitenabled` when creating projects, but `schema.sql`
is not under `src/`. -/
structure ProjectRow where
  prjid : Nat
  prjname : String
  prjversion : String
  prjpriority : Nat
  prjphase : String
  prjdesc : Option String
  prjcodedir : Option String
  prjcommitenabled : Option Nat
  prjtouchts : Nat
deriving Repr, DecidableEq

/-- A row of the `request` table.  The columns are the ones read or written by
`queries.py` and `processor.py`; `reqcommitenabled` (absent / 0 = force-skip /
2 = force-include) is per the spec's §3.  Note the row has *no*
`prjcommitenabled` column: that column lives on `project` (Modelled from the
spec, `schema.sql` absent from `src/`). -/
structure RequestRow where
  reqid : Nat
  prjid : Nat
  reqname : String
  reqprompt : String
  reqtype : String
  reqstatus : String
  reqphase : String
  reqpriority : Nat
  reqtestretries : Nat
  reqerror : Option String
  reqcommitenabled : Option Nat
  reqcodedir : Option String
  reqtouchts : Nat
deriving Repr, DecidableEq

/-- A row of the project-level `infrastructure` table.  `inftouchts` is
Modelled from the spec: §4.1 says mutation commands refresh a touched
timestamp on the row they modify (`schema.sql` absent from `src/`). -/
structure InfraRow where
  infid : Nat
  prjid : Nat
  inftype : String
  infprovider : String
  infval : Option String
  infnote : Option String
  inftouchts : Nat
deriving Repr, DecidableEq

/-- A row of the request-level `request_infrastructure` table.  `rinftouchts`
Modelled from the spec, as for `InfraRow`. -/
structure ReqInfraRow where
  rinfid : Nat
  reqid : Nat
  inftype : String
  infprovider : String
  infval : Option String
  infnote : Option String
  rinftouchts : Nat
deriving Repr, DecidableEq

/-- A row of the `learning` table.  `prjid` is an `Int` because the sentinel
`-1` means "global". -/
structure LearningRow where
  lrnid : Nat
  prjid : Int
  lrndesc : String
  lrntouchts : Nat
deriving Repr, DecidableEq

/-- The persistent store: one list per table, plus fresh-id counters standing
for SQLite's `lastrowid` auto-increment on `request` and `learning`. -/
structure DB where
  projects : List ProjectRow
  requests : List RequestRow
  infrastructure : List InfraRow
  request_infrastructure : List ReqInfraRow
  learnings : List LearningRow
  nextReqId : Nat
  nextLrnId : Nat
deriving Repr, DecidableEq

/-! ## Constants (`constants.py`) -/

/-- `NEXT_PHASE` from `constants.py`: the unconditional successor of each
phase.  `NEXT_PHASE.get` yields `None` both for `"complete"` (whose mapped
value is `None`) and for unknown phases. -/
def NEXT_PHASE : String → Option String
  | "plan" => some "dev"
  | "dev" => some "test"
  | "test" => some "deploy"
  | "deploy" => some "verify"
  | "verify" => some "document"
  | "document" => some "commit"
  | "commit" => some "complete"
  | _ => none

/-- `DEFAULT_PRIORITY` from `constants.py`. -/
def DEFAULT_PRIORITY : Nat := 5

/-- `MAX_TEST_RETRIES` from `processor.py`. -/
def MAX_TEST_RETRIES : Nat := 3

/-- `INITIAL_BACKOFF` (seconds) from `processor.py`. -/
def INITIAL_BACKOFF : Nat := 60

/-- `BENTWOOKIE_PROJECT_ID` from `processor.py`: the reserved maintenance
project that receives auto-generated bug-fix requests. -/
def BENTWOOKIE_PROJECT_ID : Nat := 1

/-! ## Settings (`settings.py`)

`settings.py` under `src/` does not define `get_commit_enabled`; only its call
site in `phases.py` is present.  Modelled from the spec. -/

/-- Modelled from the spec: the dynamic global settings consulted by the Phase
Engine.  `commit_enabled` is the "global commit-enabled default" of §6;
`none` means the key is absent from the settings file. -/
structure Settings where
  commit_enabled : Option Bool
deriving Repr, DecidableEq

/-- Modelled from the spec: `get_commit_enabled()` — the global
commit-enablement default.  Per §4.3, absence of the setting defaults to
enabled, matching the `get_setting(key, default)` pattern of `settings.py`. -/
def get_commit_enabled (s : Settings) : Bool :=
  s.commit_enabled.getD true

/-! ## Entity Store queries (`db/queries.py`) -/

/-- `get_project`: `SELECT * FROM project WHERE prjid = ?` (first match). -/
def get_project (db : DB) (prjid : Nat) : Option ProjectRow :=
  db.projects.find? (fun p => p.prjid == prjid)

/-- `get_request`: `SELECT * FROM request WHERE reqid = ?` (first match).
The returned row carries only `request`-table columns. -/
def get_request (db : DB) (reqid : Nat) : Option RequestRow :=
  db.requests.find? (fun r => r.reqid == reqid)

/-- `get_project_infrastructure`: all `infrastructure` rows of a project. -/
def get_project_infrastructure (db : DB) (prjid : Nat) : List InfraRow :=
  db.infrastructure.filter (fun i => i.prjid == prjid)

/-- `get_request_infrastructure`: all `request_infrastructure` rows of a
request. -/
def get_request_infrastructure (db : DB) (reqid : Nat) : List ReqInfraRow :=
  db.request_infrastructure.filter (fun i => i.reqid == reqid)

/-- An entry of the merged "effective infrastructure" dict built by
`get_effective_infrastructure`: the four column values plus the `source` tag
(`"project"` or `"request"`). -/
structure EffInfra where
  inftype : String
  infprovider : String
  infval : Option String
  infnote : Option String
  source : String
deriving Repr, DecidableEq

/-- Python-dict insertion on an association list: replace in place when the
key is present (keeping its position, as `dict` does), else append. -/
def dictInsert (m : List (String × EffInfra)) (k : String) (v : EffInfra) :
    List (String × EffInfra) :=
  match m with
  | [] => [(k, v)]
  | (k', v') :: rest =>
    if k' == k then (k, v) :: rest else (k', v') :: dictInsert rest k v

/-- `get_effective_infrastructure`: start from the project's rows keyed by
`inftype`, then overlay the request's rows of the same type (request wins);
each entry is tagged with its source. -/
def get_effective_infrastructure (db : DB) (reqid : Nat) :
    List (String × EffInfra) :=
  match get_request db reqid with
  | none => []
  | some req =>
    let project_infra := get_project_infrastructure db req.prjid
    let request_infra := get_request_infrastructure db reqid
    let effective := project_infra.foldl
      (fun m i => dictInsert m i.inftype
        ⟨i.inftype, i.infprovider, i.infval, i.infnote, "project"⟩) []
    request_infra.foldl
      (fun m ri => dictInsert m ri.inftype
        ⟨ri.inftype, ri.infprovider, ri.infval, ri.infnote, "request"⟩)
      effective

/-- Shared shape of every `UPDATE request ... WHERE reqid = ?`: rewrite all
rows with the matching key, report whether any row matched (`rowcount > 0`). -/
def mapRequestRow (db : DB) (reqid : Nat) (f : RequestRow → RequestRow) :
    DB × Bool :=
  ({db with requests :=
      db.requests.map (fun r => if r.reqid == reqid then f r else r)},
   db.requests.any (fun r => r.reqid == reqid))

/-- `update_request_status`: `UPDATE request SET reqstatus = ?, reqtouchts = ?
WHERE reqid = ?`. -/
def update_request_status (db : DB) (now : Nat) (reqid : Nat)
    (status : String) : DB × Bool :=
  mapRequestRow db reqid (fun r => {r with reqstatus := status, reqtouchts := now})

/-- `update_request_error`: `UPDATE request SET reqerror = ?, reqtouchts = ?
WHERE reqid = ?` (`none` clears the error). -/
def update_request_error (db : DB) (now : Nat) (reqid : Nat)
    (error : Option String) : DB × Bool :=
  mapRequestRow db reqid (fun r => {r with reqerror := error, reqtouchts := now})

/-- `update_request_phase`: `UPDATE request SET reqphase = ?, reqtouchts = ?
WHERE reqid = ?`. -/
def update_request_phase (db : DB) (now : Nat) (reqid : Nat)
    (phase : String) : DB × Bool :=
  mapRequestRow db reqid (fun r => {r with reqphase := phase, reqtouchts := now})

/-- `increment_request_test_retries`: `UPDATE request SET reqtestretries =
reqtestretries + 1, reqtouchts = ? WHERE reqid = ?`, then re-select the new
count (0 when the row is absent). -/
def increment_request_test_retries (db : DB) (now : Nat) (reqid : Nat) :
    DB × Nat :=
  let db' := (mapRequestRow db reqid
    (fun r => {r with reqtestretries := r.reqtestretries + 1, reqtouchts := now})).1
  (db', match get_request db' reqid with
        | some r => r.reqtestretries
        | none => 0)

/-- `reset_request_test_retries`: `UPDATE request SET reqtestretries = 0,
reqtouchts = ? WHERE reqid = ?`. -/
def reset_request_test_retries (db : DB) (now : Nat) (reqid : Nat) :
    DB × Bool :=
  mapRequestRow db reqid (fun r => {r with reqtestretries := 0, reqtouchts := now})

/-- `update_request`: field updates (name/prompt/type/priority/codedir); when
no field is given the source returns `False` without touching the row,
otherwise it also sets `reqtouchts`. -/
def update_request (db : DB) (now : Nat) (reqid : Nat)
    (reqname reqprompt reqtype : Option String) (reqpriority : Option Nat)
    (reqcodedir : Option String) : DB × Bool :=
  if reqname.isNone && reqprompt.isNone && reqtype.isNone &&
      reqpriority.isNone && reqcodedir.isNone then
    (db, false)
  else
    mapRequestRow db reqid (fun r =>
      {r with reqname := reqname.getD r.reqname,
              reqprompt := reqprompt.getD r.reqprompt,
              reqtype := reqtype.getD r.reqtype,
              reqpriority := reqpriority.getD r.reqpriority,
              reqcodedir := match reqcodedir with
                            | some d => some d
                            | none => r.reqcodedir,
              reqtouchts := now})

/-- `update_project`: field updates; when no field is given the source returns
`False` without touching the row, otherwise it also sets `prjtouchts`. -/
def update_project (db : DB) (now : Nat) (prjid : Nat)
    (prjname prjversion : Option String) (prjpriority : Option Nat)
    (prjphase prjdesc prjcodedir : Option String) : DB × Bool :=
  if prjname.isNone && prjversion.isNone && prjpriority.isNone &&
      prjphase.isNone && prjdesc.isNone && prjcodedir.isNone then
    (db, false)
  else
    ({db with projects := db.projects.map (fun p =>
        if p.prjid == prjid then
          {p with prjname := prjname.getD p.prjname,
                  prjversion := prjversion.getD p.prjversion,
                  prjpriority := prjpriority.getD p.prjpriority,
                  prjphase := prjphase.getD p.prjphase,
                  prjdesc := match prjdesc with
                             | some d => some d
                             | none => p.prjdesc,
                  prjcodedir := match prjcodedir with
                                | some d => some d
                                | none => p.prjcodedir,
                  prjtouchts := now}
        else p)},
     db.projects.any (fun p => p.prjid == prjid))

/-- `update_infrastructure`: updates provider/value/note of a project
infrastructure row.  The source sets *no* touched timestamp here. -/
def update_infrastructure (db : DB) (infid : Nat)
    (infprovider infval infnote : Option String) : DB × Bool :=
  if infprovider.isNone && infval.isNone && infnote.isNone then
    (db, false)
  else
    ({db with infrastructure := db.infrastructure.map (fun i =>
        if i.infid == infid then
          {i with infprovider := infprovider.getD i.infprovider,
                  infval := match infval with
                            | some v => some v
                            | none => i.infval,
                  infnote := match infnote with
                             | some v => some v
                             | none => i.infnote}
        else i)},
     db.infrastructure.any (fun i => i.infid == infid))

/-- `update_request_infrastructure`: updates provider/value/note of a request
infrastructure row.  The source sets *no* touched timestamp here. -/
def update_request_infrastructure (db : DB) (rinfid : Nat)
    (infprovider infval infnote : Option String) : DB × Bool :=
  if infprovider.isNone && infval.isNone && infnote.isNone then
    (db, false)
  else
    ({db with request_infrastructure := db.request_infrastructure.map (fun i =>
        if i.rinfid == rinfid then
          {i with infprovider := infprovider.getD i.infprovider,
                  infval := match infval with
                            | some v => some v
                            | none => i.infval,
                  infnote := match infnote with
                             | some v => some v
                             | none => i.infnote}
        else i)},
     db.request_infrastructure.any (fun i => i.rinfid == rinfid))

/-- `delete_project`: deletes, in order, the project's learnings, its
infrastructure rows, its requests, and the project row itself; reports whether
a project row was deleted.  The source issues *no* delete against
`request_infrastructure`. -/
def delete_project (db : DB) (prjid : Nat) : DB × Bool :=
  ({db with
      learnings := db.learnings.filter (fun l => !(l.prjid == (prjid : Int))),
      infrastructure := db.infrastructure.filter (fun i => !(i.prjid == prjid)),
      requests := db.requests.filter (fun r => !(r.prjid == prjid)),
      projects := db.projects.filter (fun p => !(p.prjid == prjid))},
   db.projects.any (fun p => p.prjid == prjid))

/-- `delete_request`: deletes the request's own `request_infrastructure` rows,
then the request row; reports whether a request row was deleted. -/
def delete_request (db : DB) (reqid : Nat) : DB × Bool :=
  ({db with
      request_infrastructure :=
        db.request_infrastructure.filter (fun i => !(i.reqid == reqid)),
      requests := db.requests.filter (fun r => !(r.reqid == reqid))},
   db.requests.any (fun r => r.reqid == reqid))

/-- `create_request`: inserts a request row (retries 0, no error) and returns
the fresh `lastrowid`.  The touched timestamp defaults to the insertion time
(Modelled from the spec: column default, `schema.sql` absent from `src/`). -/
def create_request (db : DB) (now : Nat) (prjid : Nat)
    (reqname reqprompt reqtype reqstatus reqphase : String)
    (reqpriority : Nat) (reqcodedir : Option String) : DB × Nat :=
  let rid := db.nextReqId
  ({db with
      requests := db.requests ++
        [⟨rid, prjid, reqname, reqprompt, reqtype, reqstatus, reqphase,
          reqpriority, 0, none, none, reqcodedir, now⟩],
      nextReqId := rid + 1},
   rid)

/-- `add_learning`: inserts a learning row and returns the fresh `lastrowid`;
the touched timestamp defaults to the insertion time (Modelled from the spec:
column default, `schema.sql` absent from `src/`). -/
def add_learning (db : DB) (now : Nat) (prjid : Int) (lrndesc : String) :
    DB × Nat :=
  let lid := db.nextLrnId
  ({db with
      learnings := db.learnings ++ [⟨lid, prjid, lrndesc, now⟩],
      nextLrnId := lid + 1},
   lid)

/-- The row shape returned by `get_next_request`: `SELECT r.*, p.prjname,
p.prjphase as project_phase, p.prjcodedir` — all request columns joined with
three project columns. -/
structure ReqView where
  reqid : Nat
  prjid : Nat
  reqname : String
  reqprompt : String
  reqtype : String
  reqstatus : String
  reqphase : String
  reqpriority : Nat
  reqtestretries : Nat
  reqerror : Option String
  reqcommitenabled : Option Nat
  reqcodedir : Option String
  reqtouchts : Nat
  prjname : String
  project_phase : String
  prjcodedir : Option String
deriving Repr, DecidableEq

/-- Build the joined row of `get_next_request` from a request and its
project. -/
def mkReqView (r : RequestRow) (p : ProjectRow) : ReqView :=
  ⟨r.reqid, r.prjid, r.reqname, r.reqprompt, r.reqtype, r.reqstatus,
   r.reqphase, r.reqpriority, r.reqtestretries, r.reqerror,
   r.reqcommitenabled, r.reqcodedir, r.reqtouchts,
   p.prjname, p.prjphase, p.prjcodedir⟩

/-- `ORDER BY r.reqpriority ASC, r.reqtouchts ASC`: strict lexicographic
"comes first" on the joined rows. -/
def lexLt (a b : ReqView) : Bool :=
  a.reqpriority < b.reqpriority ||
    (a.reqpriority == b.reqpriority && a.reqtouchts < b.reqtouchts)

/-- One step of the `LIMIT 1` fold: keep the accumulated row unless the next
row strictly precedes it. -/
def pickMinStep (acc : Option ReqView) (v : ReqView) : Option ReqView :=
  match acc with
  | none => some v
  | some b => if lexLt v b then some v else some b

/-- `LIMIT 1` under the order: fold keeping the earliest strict minimum.
(When two rows tie on both keys SQLite's order is unspecified; this model
keeps the earlier table row, a deterministic refinement.) -/
def pickMin (cands : List ReqView) : Option ReqView :=
  cands.foldl pickMinStep none

/-- `get_next_request`: the single `tbd` request joined with its owning
project, ordered by priority ascending then touched-timestamp ascending,
or `none` if no such row exists. -/
def get_next_request (db : DB) : Option ReqView :=
  pickMin (db.requests.filterMap (fun r =>
    if r.reqstatus == "tbd" then
      (get_project db r.prjid).map (fun p => mkReqView r p)
    else none))

/-! ## Phase Engine (`loop/phases.py`) -/

/-- `is_local_only`: every effective-infrastructure entry counts as local when
its provider (lowercased) is `"local"` or its value contains the substring
`"local"`; an empty effective infrastructure counts as local. -/
def is_local_only (db : DB) (reqid : Nat) : Bool :=
  let effective_infra := get_effective_infrastructure db reqid
  if effective_infra.isEmpty then
    true
  else
    effective_infra.all (fun kv =>
      let provider := strToLower kv.2.infprovider
      let value := strToLower (kv.2.infval.getD "")
      provider == "local" || strContains value "local")

/-- `get_next_phase`: the unconditional successor, with the local-only
deploy/verify skip and the commit-enablement resolution when a request id is
given.  The commit branch re-fetches the row via `get_request`, which returns
only `request`-table columns, so its read of `prjcommitenabled` — a `project`
column — always yields `None`; the translation keeps the dead branch. -/
def get_next_phase (db : DB) (s : Settings) (current_phase : String)
    (reqid : Option Nat) : Option String :=
  let next_phase := NEXT_PHASE current_phase
  match reqid with
  | none => next_phase
  | some rid =>
    if (next_phase == some "deploy" || next_phase == some "verify") &&
        is_local_only db rid then
      some "document"
    else if next_phase == some "commit" then
      match get_request db rid with
      | some request =>
        if request.reqcommitenabled == some 0 then
          some "complete"
        else if request.reqcommitenabled == some 2 then
          some "commit"
        else
          -- request.get("prjcommitenabled"): the request row has no such
          -- column, so the value is always None
          let prj_commit_enabled : Option Nat := none
          match prj_commit_enabled with
          | some v => if v == 0 then some "complete" else next_phase
          | none =>
            if !(get_commit_enabled s) then some "complete" else next_phase
      | none => next_phase
    else
      next_phase

/-! ## Processor (`loop/processor.py`) -/

/-- `is_rate_limited`: `time.time() < _rate_limited_until`, with the current
time and the cooldown deadline made explicit. -/
def is_rate_limited (now rate_limited_until : Nat) : Bool :=
  now < rate_limited_until

/-- `_is_rate_limit_error`: the error text, lowercased, contains one of the
rate-limit/overload/too-many-requests/capacity indicators. -/
def is_rate_limit_error (error_msg : String) : Bool :=
  let error_lower := strToLower error_msg
  ["rate limit", "rate_limit", "ratelimit", "429", "too many requests",
   "overloaded", "capacity"].any (fun ind => strContains error_lower ind)

/-- The structured failure report `_parse_test_results` extracts from the
`test`-phase agent output: an error count and the failing test names. -/
structure TestResults where
  error_count : Nat
  failed_tests : List String
deriving Repr, DecidableEq

/-- The agent-invocation outcome consumed by `process_request`.  On success
the `test`-phase output is represented by the failure report
`_parse_test_results` finds in it (if any); the free text itself is not
consulted by any transition decision. -/
inductive AgentOutcome where
  | success (test_results : Option TestResults)
  | timeout
  | error (msg : String)
deriving Repr, DecidableEq

/-- Process-wide configuration read by `process_request`: SDK availability,
the auth mode and API-key presence (§4.4a preconditions), and the dynamic
settings. -/
structure Env where
  sdkAvailable : Bool
  authMode : String
  apiKeySet : Bool
  settings : Settings
deriving Repr, DecidableEq

/-- The observable result of one `process_request` dispatch: the store, the
process-wide rate-limit deadline, the boolean return value, and whether
`_generate_error_fix_plan` rewrote `PLAN.md` (a filesystem effect, recorded
as a flag). -/
structure ProcResult where
  db : DB
  rate_limited_until : Nat
  success : Bool
  fixPlanRegenerated : Bool
deriving Repr, DecidableEq

/-- The prompt text `_create_bugfix_request` synthesizes from the failing
request and the error message. -/
def bugfixPrompt (original_request : ReqView) (error_msg : String) : String :=
  "## Bug Fix Request\n\n**Original Request**: " ++ original_request.reqname ++
  " (ID: " ++ toString original_request.reqid ++ ")\n**Project**: " ++
  original_request.prjname ++ "\n**Phase**: " ++ original_request.reqphase ++
  "\n\n### Error Details\n\n" ++ error_msg ++
  "\n\n### Task\n\nPlease investigate and fix this error. Review the error " ++
  "details above, identify the root cause, and implement a fix.\n\n" ++
  "### Context\n\nThis bug-fix request was auto-generated when request ID " ++
  toString original_request.reqid ++ " failed with an error.\n"

/-- `_create_bugfix_request`: files a new `bug_fix` request against the
reserved maintenance project (`BENTWOOKIE_PROJECT_ID`), phase `plan`, status
`tbd`, priority 3. -/
def create_bugfix_request (db : DB) (now : Nat) (original_request : ReqView)
    (error_msg : String) : DB × Nat :=
  create_request db now BENTWOOKIE_PROJECT_ID
    ("Bug-Fix: " ++ original_request.reqname.take 40)
    (bugfixPrompt original_request error_msg)
    "bug_fix" "tbd" "plan" 3 none

/-- The friendly-message classification of an uncategorized execution error
(`process_request`'s final `except` branch); it only rewrites the recorded
text. -/
def friendlyError (phase error_msg : String) : String :=
  let lower := strToLower error_msg
  if strContains lower "credit" || strContains lower "balance" ||
      strContains lower "billing" then
    "Insufficient credits. Add credits at: https://console.anthropic.com/settings/billing"
  else if strContains lower "exit code 1" || strContains lower "command failed" then
    "Claude CLI returned an error. Check your API credits and authentication."
  else if strContains lower "api" || strContains lower "key" ||
      strContains lower "auth" then
    "Authentication error: " ++ error_msg
  else
    "Error in phase " ++ phase ++ ": " ++ error_msg

/-- The shared terminal-error tail of `process_request`: record the message,
set the status, optionally append a learning, file the bug-fix request, and
return failure. -/
def failRequest (db : DB) (now : Nat) (request : ReqView) (reqid : Nat)
    (error_msg : String) (status : String) (learning : Option String)
    (rl : Nat) : ProcResult :=
  let db := (update_request_error db now reqid (some error_msg)).1
  let db := (update_request_status db now reqid status).1
  let db := match learning with
            | some note => (add_learning db now (request.prjid : Int) note).1
            | none => db
  let db := (create_bugfix_request db now request error_msg).1
  ⟨db, rl, false, false⟩

/-- The phase-advancement tail of `process_request` (§4.4e): compute
`next_phase`; if it exists and is not `complete`, re-queue in that phase,
else mark the request complete and done. -/
def advancePhase (db : DB) (env : Env) (now : Nat) (phase : String)
    (reqid : Nat) (rl : Nat) (fixPlan : Bool) : ProcResult :=
  match get_next_phase db env.settings phase (some reqid) with
  | some np =>
    if np == "complete" then
      let db := (update_request_phase db now reqid "complete").1
      let db := (update_request_status db now reqid "done").1
      ⟨db, rl, true, fixPlan⟩
    else
      let db := (update_request_phase db now reqid np).1
      let db := (update_request_status db now reqid "tbd").1
      ⟨db, rl, true, fixPlan⟩
  | none =>
    let db := (update_request_phase db now reqid "complete").1
    let db := (update_request_status db now reqid "done").1
    ⟨db, rl, true, fixPlan⟩

/-- `process_request`: one dispatch of a request through its current phase.
`request` is the joined row handed over by the scheduler, `outcome` the
external agent's result, `rl` the process-wide `_rate_limited_until` state,
`now` the dispatch time.  Filesystem effects (doc saving and the
`reqdocpath` update, `PLAN.md` regeneration) are not consulted by any
transition decision; the `PLAN.md` rewrite is recorded as the
`fixPlanRegenerated` flag. -/
def process_request (db : DB) (env : Env) (now : Nat) (rl : Nat)
    (request : ReqView) (outcome : AgentOutcome) : ProcResult :=
  let reqid := request.reqid
  let phase := request.reqphase
  -- mark as work in progress and clear any previous error
  let db := (update_request_error db now reqid none).1
  let db := (update_request_status db now reqid "wip").1
  if !env.sdkAvailable then
    failRequest db now request reqid
      "Claude Agent SDK not available. Install with: pip install claude-agent-sdk"
      "err" none rl
  else if env.authMode == "api" && !env.apiKeySet then
    failRequest db now request reqid
      ("Auth mode is 'api' but ANTHROPIC_API_KEY not set. " ++
       "Either set the key: export ANTHROPIC_API_KEY='your-key' " ++
       "Or switch to Max mode: bw config --auth max")
      "err" none rl
  else
    match outcome with
    | .success test_results =>
      if phase == "test" then
        match test_results with
        | some tr =>
          if tr.error_count > 0 then
            let retry_count := request.reqtestretries
            if retry_count ≥ MAX_TEST_RETRIES then
              failRequest db now request reqid
                ("Max test retries (" ++ toString MAX_TEST_RETRIES ++
                 ") exceeded. " ++ toString tr.error_count ++
                 " test(s) still failing.")
                "err"
                (some ("Request '" ++ request.reqname ++
                  "' exceeded max test retries with " ++
                  toString tr.error_count ++ " failures"))
                rl
            else
              -- generate the error fix plan and loop back to dev
              let db := (increment_request_test_retries db now reqid).1
              let db := (update_request_phase db now reqid "dev").1
              let db := (update_request_status db now reqid "tbd").1
              ⟨db, rl, true, true⟩
          else
            -- tests passed: reset the retry counter and continue
            let db := if request.reqtestretries != 0 then
                        (reset_request_test_retries db now reqid).1
                      else db
            advancePhase db env now phase reqid rl false
        | none =>
          let db := if request.reqtestretries != 0 then
                      (reset_request_test_retries db now reqid).1
                    else db
          advancePhase db env now phase reqid rl false
      else
        advancePhase db env now phase reqid rl false
    | .timeout =>
      failRequest db now request reqid ("Timed out in phase " ++ phase)
        "tmout" none rl
    | .error msg =>
      if is_rate_limit_error msg then
        -- keep status TBD so it gets retried; set the global cooldown
        let db := (update_request_status db now reqid "tbd").1
        ⟨db, now + INITIAL_BACKOFF, false, false⟩
      else
        failRequest db now request reqid (friendlyError phase msg) "err"
          (some ("Error in " ++ phase ++ " phase for " ++ request.reqname ++
            ": " ++ msg.take 200))
          rl

/-! ## Helper lemmas -/

/-- `find?` with guard `q` after a `q`-guarded rewrite: when the rewrite
preserves the guard value, looking up the rewritten list finds the rewritten
row. -/
theorem find?_map_if {α : Type} (q : α → Bool) (f : α → α)
    (hf : ∀ a, q (f a) = q a) :
    ∀ l : List α,
      (l.map (fun a => if q a then f a else a)).find? q = (l.find? q).map f
  | [] => rfl
  | a :: t => by
    by_cases ha : q a = true
    · simp [List.find?_cons, ha, hf]
    · have ha' : q a = false := by simpa using ha
      simp [List.find?_cons, ha', find?_map_if q f hf t]

/-- `find?` over an appended list when the left part already finds a row. -/
theorem find?_append_left {α : Type} (q : α → Bool) {l₁ : List α}
    (l₂ : List α) {a : α} (h : l₁.find? q = some a) :
    (l₁ ++ l₂).find? q = some a := by
  induction l₁ with
  | nil => simp [List.find?] at h
  | cons x t ih =>
    by_cases hx : q x = true
    · simp only [List.find?_cons, hx, if_pos] at h
      simpa [List.find?_cons, hx] using h
    · have hx' : q x = false := by simpa using hx
      simp only [List.find?_cons, hx', Bool.false_eq_true, if_neg,
        List.cons_append] at h ⊢
      exact ih h

/-- A keyed request update rewrites exactly the looked-up row. -/
theorem get_request_mapRequestRow (db : DB) (reqid : Nat)
    (f : RequestRow → RequestRow) (hf : ∀ r, (f r).reqid = r.reqid) :
    get_request (mapRequestRow db reqid f).1 reqid
      = (get_request db reqid).map f := by
  have h := find?_map_if (fun r : RequestRow => r.reqid == reqid) f
    (fun a => by simp only [hf]) db.requests
  simpa [get_request, mapRequestRow] using h

/-- `update_request_error` rewrites exactly the looked-up row. -/
theorem get_request_after_error {db : DB} {n reqid : Nat}
    {e : Option String} {r : RequestRow} (h : get_request db reqid = some r) :
    get_request (update_request_error db n reqid e).1 reqid
      = some {r with reqerror := e, reqtouchts := n} := by
  have hmap := get_request_mapRequestRow db reqid
    (fun r => {r with reqerror := e, reqtouchts := n}) (fun _ => rfl)
  simp only [update_request_error]
  rw [hmap, h]
  rfl

/-- `update_request_status` rewrites exactly the looked-up row. -/
theorem get_request_after_status {db : DB} {n reqid : Nat}
    {s : String} {r : RequestRow} (h : get_request db reqid = some r) :
    get_request (update_request_status db n reqid s).1 reqid
      = some {r with reqstatus := s, reqtouchts := n} := by
  have hmap := get_request_mapRequestRow db reqid
    (fun r => {r with reqstatus := s, reqtouchts := n}) (fun _ => rfl)
  simp only [update_request_status]
  rw [hmap, h]
  rfl

/-- `update_request_phase` rewrites exactly the looked-up row. -/
theorem get_request_after_phase {db : DB} {n reqid : Nat}
    {q : String} {r : RequestRow} (h : get_request db reqid = some r) :
    get_request (update_request_phase db n reqid q).1 reqid
      = some {r with reqphase := q, reqtouchts := n} := by
  have hmap := get_request_mapRequestRow db reqid
    (fun r => {r with reqphase := q, reqtouchts := n}) (fun _ => rfl)
  simp only [update_request_phase]
  rw [hmap, h]
  rfl

/-- `increment_request_test_retries` rewrites exactly the looked-up row. -/
theorem get_request_after_increment {db : DB} {n reqid : Nat}
    {r : RequestRow} (h : get_request db reqid = some r) :
    get_request (increment_request_test_retries db n reqid).1 reqid
      = some {r with reqtestretries := r.reqtestretries + 1, reqtouchts := n} := by
  have hmap := get_request_mapRequestRow db reqid
    (fun r => {r with reqtestretries := r.reqtestretries + 1, reqtouchts := n})
    (fun _ => rfl)
  show get_request (mapRequestRow db reqid
    (fun r => {r with reqtestretries := r.reqtestretries + 1,
                      reqtouchts := n})).1 reqid = _
  rw [hmap, h]
  rfl

/-- `create_request` leaves an already-present row where it was. -/
theorem get_request_after_create {db : DB} {now prjid : Nat}
    {n p t s ph : String} {pr : Nat} {cd : Option String} {reqid : Nat}
    {r : RequestRow} (h : get_request db reqid = some r) :
    get_request (create_request db now prjid n p t s ph pr cd).1 reqid
      = some r :=
  find?_append_left _ _ h

/-! ## Claims -/

/-- The store used to evaluate claim C1: one project whose `prjcommitenabled`
is 0 (project-level force-skip), one request of that project in phase
`document` with no request-level commit override. -/
def commitDB : DB :=
  { projects := [⟨1, "proj", "poc", 5, "dev", none, none, some 0, 0⟩],
    requests :=
      [⟨1, 1, "req", "do it", "new_feature", "tbd", "document", 5, 0, none,
        none, none, 0⟩],
    infrastructure := [],
    request_infrastructure := [],
    learnings := [],
    nextReqId := 2,
    nextLrnId := 1 }

/-- C1: the claim says commit-enablement falls back to the project-level
override (0 → `complete`) before the global default.  Evaluating the code on
a request with no request-level override whose project sets the override to 0
and with the global setting absent (default enabled): `get_next_phase` returns
`commit`, not the claimed `complete` — the commit branch reads
`prjcommitenabled` off the row returned by `get_request`, which carries only
`request`-table columns, so the project-level override is never consulted. -/
theorem C1_project_commit_override_ignored :
    get_next_phase commitDB ⟨none⟩ "document" (some 1) = some "commit"
    ∧ (get_project commitDB 1).map (fun p => p.prjcommitenabled)
        = some (some 0)
    ∧ (get_request commitDB 1).map (fun r => r.reqcommitenabled)
        = some none := by
  decide

/-- The store used to evaluate claim C3: two projects, each with one request,
one project-infrastructure row; each request has one infrastructure-override
row; project 1 has a learning. -/
def cascadeDB : DB :=
  { projects := [⟨1, "alpha", "poc", 5, "dev", none, none, none, 0⟩,
                 ⟨2, "beta", "poc", 5, "dev", none, none, none, 0⟩],
    requests :=
      [⟨10, 1, "r10", "p", "new_feature", "tbd", "plan", 5, 0, none, none,
        none, 0⟩,
       ⟨20, 2, "r20", "p", "new_feature", "tbd", "plan", 5, 0, none, none,
        none, 0⟩],
    infrastructure := [⟨100, 1, "compute", "aws", none, none, 0⟩,
                       ⟨101, 2, "storage", "local", none, none, 0⟩],
    request_infrastructure := [⟨200, 10, "compute", "gcp", none, none, 0⟩,
                               ⟨201, 20, "queue", "azure", none, none, 0⟩],
    learnings := [⟨300, 1, "note", 0⟩],
    nextReqId := 21,
    nextLrnId := 301 }

/-- C3: deleting project 1 removes its project row, its request, its
infrastructure and its learnings — but the deleted request's
infrastructure-override row (rinfid 200, reqid 10) is left behind in
`request_infrastructure`, contradicting the claimed cascade
"Requests → their Infrastructure Overrides" (`delete_project` issues no
delete against that table).  `delete_request`, by contrast, behaves as
claimed: it removes request 20 and its own override, leaving the owning
project and the project's infrastructure unchanged. -/
theorem C3_delete_project_leaves_orphan_overrides :
    (delete_project cascadeDB 1).1.projects
        = [⟨2, "beta", "poc", 5, "dev", none, none, none, 0⟩]
    ∧ (delete_project cascadeDB 1).1.requests
        = [⟨20, 2, "r20", "p", "new_feature", "tbd", "plan", 5, 0, none, none,
            none, 0⟩]
    ∧ (delete_project cascadeDB 1).1.infrastructure
        = [⟨101, 2, "storage", "local", none, none, 0⟩]
    ∧ (delete_project cascadeDB 1).1.learnings = []
    ∧ (delete_project cascadeDB 1).1.request_infrastructure
        = [⟨200, 10, "compute", "gcp", none, none, 0⟩,
           ⟨201, 20, "queue", "azure", none, none, 0⟩]
    ∧ (delete_request cascadeDB 20).1.requests
        = [⟨10, 1, "r10", "p", "new_feature", "tbd", "plan", 5, 0, none, none,
            none, 0⟩]
    ∧ (delete_request cascadeDB 20).1.request_infrastructure
        = [⟨200, 10, "compute", "gcp", none, none, 0⟩]
    ∧ (delete_request cascadeDB 20).1.projects = cascadeDB.projects
    ∧ (delete_request cascadeDB 20).1.infrastructure
        = cascadeDB.infrastructure := by
  decide

/-- C10: with no request id, `get_next_phase` applies neither the local-only
skip nor the commit-enablement resolution: it returns exactly the fixed
unconditional successor `NEXT_PHASE` of the given phase, and the successor of
`complete` is none. -/
theorem C10_no_reqid_unconditional_successor (db : DB) (s : Settings)
    (current : String) :
    get_next_phase db s current none = NEXT_PHASE current
    ∧ NEXT_PHASE "complete" = none :=
  ⟨rfl, rfl⟩

/-- When every effective-infrastructure entry has provider `local`,
`is_local_only` holds (vacuously so for an empty merge). -/
theorem is_local_only_of_all_local {db : DB} {rid : Nat}
    (h : ∀ kv ∈ get_effective_infrastructure db rid,
      strToLower (kv : String × EffInfra).2.infprovider = "local") :
    is_local_only db rid = true := by
  unfold is_local_only
  by_cases he : (get_effective_infrastructure db rid).isEmpty = true
  · simp [he]
  · have he' : (get_effective_infrastructure db rid).isEmpty = false := by
      simpa using he
    simp only [he', Bool.false_eq_true, if_neg, not_false_eq_true]
    rw [List.all_eq_true]
    intro kv hkv
    have hkv' := h kv hkv
    simp [hkv']

/-- One effective entry with a non-`local` provider and a value not containing
`"local"` defeats `is_local_only`. -/
theorem is_local_only_false_of_nonlocal {db : DB} {rid : Nat}
    {kv : String × EffInfra}
    (hmem : kv ∈ get_effective_infrastructure db rid)
    (hprov : strToLower kv.2.infprovider ≠ "local")
    (hval : strContains (strToLower (kv.2.infval.getD "")) "local" = false) :
    is_local_only db rid = false := by
  unfold is_local_only
  have hne : (get_effective_infrastructure db rid).isEmpty = false := by
    cases hlist : get_effective_infrastructure db rid with
    | nil => rw [hlist] at hmem; cases hmem
    | cons a t => simp
  simp only [hne, Bool.false_eq_true, if_neg, not_false_eq_true]
  rw [Bool.eq_false_iff]
  intro hall
  have hk := List.all_eq_true.mp hall kv hmem
  simp only [hval, Bool.or_false, beq_iff_eq] at hk
  exact hprov hk

/-- C8: when the effective infrastructure of a request is empty or consists
only of provider-`local` entries, `get_next_phase` maps `test` (the
deploy-predecessor) and `deploy` (the verify-predecessor) both to `document`,
skipping `deploy` and `verify`; in particular a request with no
infrastructure at all is treated as local-only. -/
theorem C8_local_only_skips_deploy_and_verify (db : DB) (s : Settings)
    (rid : Nat)
    (h : ∀ kv ∈ get_effective_infrastructure db rid,
      strToLower (kv : String × EffInfra).2.infprovider = "local") :
    get_next_phase db s "test" (some rid) = some "document"
    ∧ get_next_phase db s "deploy" (some rid) = some "document"
    ∧ (get_effective_infrastructure db rid = [] → is_local_only db rid = true) := by
  have hloc := is_local_only_of_all_local h
  have h1 : NEXT_PHASE "test" = some "deploy" := rfl
  have h2 : NEXT_PHASE "deploy" = some "verify" := rfl
  refine ⟨?_, ?_, fun _ => hloc⟩
  · simp [get_next_phase, h1, hloc]
  · simp [get_next_phase, h2, hloc]

/-- The store for the C8 witness: one request, no infrastructure anywhere. -/
def emptyInfraDB : DB :=
  { projects := [⟨1, "proj", "poc", 5, "dev", none, none, none, 0⟩],
    requests :=
      [⟨1, 1, "req", "p", "new_feature", "tbd", "test", 5, 0, none, none,
        none, 0⟩],
    infrastructure := [],
    request_infrastructure := [],
    learnings := [],
    nextReqId := 2,
    nextLrnId := 1 }

/-- Witness for C8 on a concrete store with no infrastructure configured. -/
theorem C8_witness :
    get_next_phase emptyInfraDB ⟨none⟩ "test" (some 1) = some "document"
    ∧ get_next_phase emptyInfraDB ⟨none⟩ "deploy" (some 1) = some "document"
    ∧ is_local_only emptyInfraDB 1 = true := by
  have h := C8_local_only_skips_deploy_and_verify emptyInfraDB ⟨none⟩ 1
    (by decide)
  exact ⟨h.1, h.2.1, h.2.2 (by decide)⟩

/-- The store refuting C2 as stated: the request's single effective entry is a
`compute` override with non-local provider `aws` whose free-text value
contains the word "local". -/
def localValueDB : DB :=
  { projects := [⟨1, "proj", "poc", 5, "dev", none, none, none, 0⟩],
    requests :=
      [⟨1, 1, "req", "p", "new_feature", "tbd", "test", 5, 0, none, none,
        none, 0⟩],
    infrastructure := [],
    request_infrastructure :=
      [⟨200, 1, "compute", "aws", some "local stack", none, 0⟩],
    learnings := [],
    nextReqId := 2,
    nextLrnId := 1 }

/-- C2 as stated is false: a request with a non-local `compute` override
(provider `aws`) whose free-text value contains "local" *does* have `deploy`
skipped — `get_next_phase` from `test` returns `document`, not `deploy`,
because `is_local_only` also accepts an entry whose value contains the
substring "local". -/
theorem C2_counterexample :
    get_effective_infrastructure localValueDB 1
      = [("compute", ⟨"compute", "aws", some "local stack", none, "request"⟩)]
    ∧ get_next_phase localValueDB ⟨none⟩ "test" (some 1) = some "document" := by
  decide

/-- C2 (amended): if a request has an effective `compute` entry whose provider
is not `local` *and whose free-text value does not contain "local"
(case-insensitively)*, then neither `deploy` nor `verify` is skipped: from
`test` the next phase is `deploy` and from `deploy` it is `verify`. -/
theorem C2_nonlocal_compute_not_skipped (db : DB) (s : Settings) (rid : Nat)
    (kv : String × EffInfra)
    (hmem : kv ∈ get_effective_infrastructure db rid)
    (htype : kv.2.inftype = "compute")
    (hprov : strToLower kv.2.infprovider ≠ "local")
    (hval : strContains (strToLower (kv.2.infval.getD "")) "local" = false) :
    get_next_phase db s "test" (some rid) = some "deploy"
    ∧ get_next_phase db s "deploy" (some rid) = some "verify" := by
  have hloc := is_local_only_false_of_nonlocal hmem hprov hval
  have h1 : NEXT_PHASE "test" = some "deploy" := rfl
  have h2 : NEXT_PHASE "deploy" = some "verify" := rfl
  constructor
  · simp [get_next_phase, h1, hloc]
  · simp [get_next_phase, h2, hloc]

/-- The store for the C2 witness: a genuine non-local `compute` override. -/
def awsComputeDB : DB :=
  { projects := [⟨1, "proj", "poc", 5, "dev", none, none, none, 0⟩],
    requests :=
      [⟨1, 1, "req", "p", "new_feature", "tbd", "test", 5, 0, none, none,
        none, 0⟩],
    infrastructure := [],
    request_infrastructure :=
      [⟨200, 1, "compute", "aws", some "lambda", none, 0⟩],
    learnings := [],
    nextReqId := 2,
    nextLrnId := 1 }

/-- Witness for the amended C2 on a concrete store. -/
theorem C2_witness :
    get_next_phase awsComputeDB ⟨none⟩ "test" (some 1) = some "deploy"
    ∧ get_next_phase awsComputeDB ⟨none⟩ "deploy" (some 1) = some "verify" := by
  have hm : (("compute",
      ⟨"compute", "aws", some "lambda", none, "request"⟩) : String × EffInfra)
      ∈ get_effective_infrastructure awsComputeDB 1 := by decide
  exact C2_nonlocal_compute_not_skipped awsComputeDB ⟨none⟩ 1 _ hm rfl
    (by decide) (by decide)

/-- C5: on an execution error classified as a rate limit, `process_request`
sets the process-wide cooldown to `now + INITIAL_BACKOFF`, puts the request
back to status `tbd` (not `err`, with no error text recorded), creates no
escalation request, and `is_rate_limited` is true at `now` and false at any
time from the end of the cooldown window on. -/
theorem C5_rate_limit_requeues_without_escalation (db : DB) (env : Env)
    (now rl : Nat) (v : ReqView) (m : String) (r : RequestRow)
    (hsdk : env.sdkAvailable = true)
    (hauth : (env.authMode == "api" && !env.apiKeySet) = false)
    (hrl : is_rate_limit_error m = true)
    (hr : get_request db v.reqid = some r) :
    (process_request db env now rl v (.error m)).rate_limited_until
        = now + INITIAL_BACKOFF
    ∧ get_request (process_request db env now rl v (.error m)).db v.reqid
        = some {r with reqerror := none, reqstatus := "tbd", reqtouchts := now}
    ∧ (process_request db env now rl v (.error m)).db.requests.length
        = db.requests.length
    ∧ (process_request db env now rl v (.error m)).success = false
    ∧ is_rate_limited now
        (process_request db env now rl v (.error m)).rate_limited_until = true
    ∧ ∀ t, now + INITIAL_BACKOFF ≤ t →
        is_rate_limited t
          (process_request db env now rl v (.error m)).rate_limited_until
          = false := by
  simp only [process_request, hsdk, hauth, hrl, Bool.not_true,
    Bool.false_eq_true, if_false, if_true, ite_true, ite_false]
  refine ⟨trivial, ?_, ?_, trivial, ?_, ?_⟩
  · exact get_request_after_status (get_request_after_status
      (get_request_after_error hr))
  · simp [update_request_status, update_request_error, mapRequestRow]
  · simp only [is_rate_limited, INITIAL_BACKOFF]
    simp
  · intro t ht
    simp only [is_rate_limited, INITIAL_BACKOFF] at *
    simp only [decide_eq_false_iff_not]
    omega

/-- `add_learning` does not change the `request` table. -/
theorem get_request_after_learning (db : DB) (now : Nat) (pid : Int)
    (d : String) (id : Nat) :
    get_request (add_learning db now pid d).1 id = get_request db id := rfl

/-- C4: in phase `test` with a failure report carrying a positive error
count — when the retry counter is 2 (cap 3), `process_request` regenerates
the fix plan, moves the request to phase `dev` with status `tbd` and counter
3; when the counter is already 3, it instead records the max-retries error,
sets status `err` leaving the counter unchanged, appends the learning note,
and files the escalation bug-fix request. -/
theorem C4_test_retry_cycle_and_exhaustion (db : DB) (env : Env)
    (now rl : Nat) (v : ReqView) (r : RequestRow) (tr : TestResults)
    (hsdk : env.sdkAvailable = true)
    (hauth : (env.authMode == "api" && !env.apiKeySet) = false)
    (hphase : v.reqphase = "test")
    (herr : 0 < tr.error_count)
    (hr : get_request db v.reqid = some r) :
    (v.reqtestretries = 2 → r.reqtestretries = 2 →
      get_request (process_request db env now rl v (.success (some tr))).db
          v.reqid
        = some {r with reqerror := none, reqtestretries := 3,
                       reqphase := "dev", reqstatus := "tbd",
                       reqtouchts := now}
      ∧ (process_request db env now rl v
          (.success (some tr))).fixPlanRegenerated = true
      ∧ (process_request db env now rl v (.success (some tr))).success = true)
    ∧ (v.reqtestretries = 3 → r.reqtestretries = 3 →
      get_request (process_request db env now rl v (.success (some tr))).db
          v.reqid
        = some {r with
            reqerror := some ("Max test retries (" ++ toString MAX_TEST_RETRIES
              ++ ") exceeded. " ++ toString tr.error_count
              ++ " test(s) still failing."),
            reqstatus := "err", reqtouchts := now}
      ∧ (process_request db env now rl v (.success (some tr))).db.learnings
        = db.learnings ++ [⟨db.nextLrnId, (v.prjid : Int),
            "Request '" ++ v.reqname ++ "' exceeded max test retries with "
              ++ toString tr.error_count ++ " failures", now⟩]
      ∧ (process_request db env now rl v
          (.success (some tr))).db.requests.length
        = db.requests.length + 1
      ∧ (process_request db env now rl v (.success (some tr))).success
        = false) := by
  constructor
  · intro h2 hr2
    have hno : ¬ (v.reqtestretries ≥ MAX_TEST_RETRIES) := by rw [h2]; decide
    simp only [process_request, hsdk, hauth, hphase, herr, hno, Bool.not_true,
      Bool.false_eq_true, if_false, ite_true, ite_false, beq_self_eq_true,
      if_true, if_pos, not_false_eq_true, gt_iff_lt]
    refine ⟨?_, trivial, trivial⟩
    have h5 := get_request_after_status (n := now) (s := "tbd")
      (get_request_after_phase (n := now) (q := "dev")
        (get_request_after_increment (n := now)
          (get_request_after_status (n := now) (s := "wip")
            (get_request_after_error (n := now) (e := none) hr))))
    simpa [hr2] using h5
  · intro h3 hr3
    have hyes : v.reqtestretries ≥ MAX_TEST_RETRIES := by rw [h3]; decide
    simp only [process_request, hsdk, hauth, hphase, herr, hyes, Bool.not_true,
      Bool.false_eq_true, if_false, ite_true, ite_false, beq_self_eq_true,
      if_true, if_pos, not_false_eq_true, gt_iff_lt, failRequest]
    refine ⟨?_, ?_, ?_, trivial⟩
    · exact get_request_after_create
        (get_request_after_status (n := now) (s := "err")
          (get_request_after_error (n := now)
            (get_request_after_status (n := now) (s := "wip")
              (get_request_after_error (n := now) (e := none) hr))))
    · simp [create_bugfix_request, create_request, add_learning,
        update_request_error, update_request_status, mapRequestRow]
    · simp [create_bugfix_request, create_request, add_learning,
        update_request_error, update_request_status, mapRequestRow]

/-- A concrete store with one request (id 7) in phase `test`, retries 2. -/
def retryDB2 : DB :=
  { projects := [⟨1, "proj", "poc", 5, "dev", none, none, none, 0⟩],
    requests :=
      [⟨7, 1, "r", "p", "new_feature", "wip", "test", 5, 2, none, none,
        none, 0⟩],
    infrastructure := [],
    request_infrastructure := [],
    learnings := [],
    nextReqId := 8,
    nextLrnId := 1 }

/-- As `retryDB2` but with the retry counter already at the cap 3. -/
def retryDB3 : DB :=
  { projects := [⟨1, "proj", "poc", 5, "dev", none, none, none, 0⟩],
    requests :=
      [⟨7, 1, "r", "p", "new_feature", "wip", "test", 5, 3, none, none,
        none, 0⟩],
    infrastructure := [],
    request_infrastructure := [],
    learnings := [],
    nextReqId := 8,
    nextLrnId := 1 }

/-- The joined view of `retryDB2`'s request. -/
def retryView2 : ReqView :=
  ⟨7, 1, "r", "p", "new_feature", "wip", "test", 5, 2, none, none, none, 0,
   "proj", "dev", none⟩

/-- The joined view of `retryDB3`'s request. -/
def retryView3 : ReqView :=
  ⟨7, 1, "r", "p", "new_feature", "wip", "test", 5, 3, none, none, none, 0,
   "proj", "dev", none⟩

/-- An environment with the SDK available and Max-mode auth (no key needed). -/
def testEnv : Env := ⟨true, "max", false, ⟨none⟩⟩

/-- Witness for C4: at retries 2 a failing test report cycles request 7 back
to `dev`/`tbd` with retries 3; at retries 3 it terminates with status `err`,
retries unchanged, the learning note appended and one escalation request
filed. -/
theorem C4_witness :
    get_request (process_request retryDB2 testEnv 50 0 retryView2
        (.success (some ⟨2, ["t1"]⟩))).db 7
      = some ⟨7, 1, "r", "p", "new_feature", "tbd", "dev", 5, 3, none, none,
          none, 50⟩
    ∧ (process_request retryDB2 testEnv 50 0 retryView2
        (.success (some ⟨2, ["t1"]⟩))).fixPlanRegenerated = true
    ∧ get_request (process_request retryDB3 testEnv 50 0 retryView3
        (.success (some ⟨2, ["t1"]⟩))).db 7
      = some ⟨7, 1, "r", "p", "new_feature", "err", "test", 5, 3,
          some "Max test retries (3) exceeded. 2 test(s) still failing.",
          none, none, 50⟩
    ∧ (process_request retryDB3 testEnv 50 0 retryView3
        (.success (some ⟨2, ["t1"]⟩))).db.learnings
      = [⟨1, 1, "Request 'r' exceeded max test retries with 2 failures", 50⟩]
    ∧ (process_request retryDB3 testEnv 50 0 retryView3
        (.success (some ⟨2, ["t1"]⟩))).db.requests.length = 2 := by
  have hA := (C4_test_retry_cycle_and_exhaustion retryDB2 testEnv 50 0
    retryView2 ⟨7, 1, "r", "p", "new_feature", "wip", "test", 5, 2, none,
      none, none, 0⟩ ⟨2, ["t1"]⟩ rfl (by decide) rfl (by decide)
    (by decide)).1 rfl rfl
  have hB := (C4_test_retry_cycle_and_exhaustion retryDB3 testEnv 50 0
    retryView3 ⟨7, 1, "r", "p", "new_feature", "wip", "test", 5, 3, none,
      none, none, 0⟩ ⟨2, ["t1"]⟩ rfl (by decide) rfl (by decide)
    (by decide)).2 rfl rfl
  exact ⟨hA.1, hA.2.1, hB.1, hB.2.1, hB.2.2.1⟩

/-- §4.4a preconditions hold: execution capability available and the auth
check passes. -/
def preconditionsOk (env : Env) : Prop :=
  env.sdkAvailable = true ∧ (env.authMode == "api" && !env.apiKeySet) = false

/-- The terminal failure paths of one dispatch: SDK-unavailable or
missing-API-key precondition failures, agent timeout, test-retry exhaustion,
and an uncategorized execution error (not classified as a rate limit). -/
def terminalPath (env : Env) (v : ReqView) (outcome : AgentOutcome) : Prop :=
  env.sdkAvailable = false
  ∨ (env.sdkAvailable = true ∧ (env.authMode == "api" && !env.apiKeySet) = true)
  ∨ (preconditionsOk env ∧ outcome = .timeout)
  ∨ (preconditionsOk env ∧ v.reqphase = "test" ∧
      ∃ tr, outcome = .success (some tr) ∧ 0 < tr.error_count ∧
        MAX_TEST_RETRIES ≤ v.reqtestretries)
  ∨ (preconditionsOk env ∧ ∃ m, outcome = .error m ∧
      is_rate_limit_error m = false)

/-- C6: every terminal failure path of `process_request` appends exactly one
new request — against the reserved maintenance project, of type `bug_fix`, in
phase `plan` with status `tbd`, and with priority 3, strictly more urgent
(numerically lower) than the default priority 5 — while a rate-limit requeue
appends none. -/
theorem C6_terminal_failures_escalate_once (db : DB) (env : Env)
    (now rl : Nat) (v : ReqView) (outcome : AgentOutcome) :
    (terminalPath env v outcome →
      ∃ pre nr,
        (process_request db env now rl v outcome).db.requests = pre ++ [nr]
        ∧ pre.length = db.requests.length
        ∧ nr.prjid = BENTWOOKIE_PROJECT_ID
        ∧ nr.reqtype = "bug_fix"
        ∧ nr.reqphase = "plan"
        ∧ nr.reqstatus = "tbd"
        ∧ nr.reqpriority = 3
        ∧ nr.reqpriority < DEFAULT_PRIORITY)
    ∧ (∀ m, preconditionsOk env → outcome = .error m →
        is_rate_limit_error m = true →
        (process_request db env now rl v outcome).db.requests.length
          = db.requests.length) := by
  constructor
  · rintro (hsdk | ⟨hsdk, hauth⟩ | ⟨⟨hsdk, hauth⟩, hto⟩ |
      ⟨⟨hsdk, hauth⟩, hph, tr, hout, herr, hcap⟩ |
      ⟨⟨hsdk, hauth⟩, m, hout, hnr⟩)
    · simp only [process_request, hsdk, Bool.not_false, if_true, ite_true,
        failRequest, create_bugfix_request, create_request]
      refine ⟨_, _, rfl, ?_, rfl, rfl, rfl, rfl, rfl,
        by show (3 : Nat) < DEFAULT_PRIORITY; decide⟩
      simp [update_request_error, update_request_status, mapRequestRow]
    · simp only [process_request, hsdk, hauth, Bool.not_true,
        Bool.false_eq_true, if_false, if_true, ite_true, ite_false,
        failRequest, create_bugfix_request, create_request]
      refine ⟨_, _, rfl, ?_, rfl, rfl, rfl, rfl, rfl,
        by show (3 : Nat) < DEFAULT_PRIORITY; decide⟩
      simp [update_request_error, update_request_status, mapRequestRow]
    · subst hto
      simp only [process_request, hsdk, hauth, Bool.not_true,
        Bool.false_eq_true, if_false, if_true, ite_true, ite_false,
        failRequest, create_bugfix_request, create_request]
      refine ⟨_, _, rfl, ?_, rfl, rfl, rfl, rfl, rfl,
        by show (3 : Nat) < DEFAULT_PRIORITY; decide⟩
      simp [update_request_error, update_request_status, mapRequestRow]
    · subst hout
      simp only [process_request, hsdk, hauth, hph, herr, hcap, ge_iff_le,
        Bool.not_true, Bool.false_eq_true, if_false, if_true, ite_true,
        ite_false, beq_self_eq_true, gt_iff_lt, failRequest,
        create_bugfix_request, create_request]
      refine ⟨_, _, rfl, ?_, rfl, rfl, rfl, rfl, rfl,
        by show (3 : Nat) < DEFAULT_PRIORITY; decide⟩
      simp [update_request_error, update_request_status, mapRequestRow,
        add_learning]
    · subst hout
      simp only [process_request, hsdk, hauth, hnr, Bool.not_true,
        Bool.false_eq_true, if_false, if_true, ite_true, ite_false,
        failRequest, create_bugfix_request, create_request]
      refine ⟨_, _, rfl, ?_, rfl, rfl, rfl, rfl, rfl,
        by show (3 : Nat) < DEFAULT_PRIORITY; decide⟩
      simp [update_request_error, update_request_status, mapRequestRow,
        add_learning]
  · intro m ⟨hsdk, hauth⟩ hout hrlerr
    subst hout
    simp only [process_request, hsdk, hauth, hrlerr, Bool.not_true,
      Bool.false_eq_true, if_false, if_true, ite_true, ite_false]
    simp [update_request_status, update_request_error, mapRequestRow]

/-- Witness for C6: a timeout on request 7 files exactly one bug-fix request
against project 1 with priority 3; a rate-limited error leaves the request
table's size unchanged. -/
theorem C6_witness :
    (∃ pre nr,
      (process_request retryDB2 testEnv 50 0 retryView2 .timeout).db.requests
        = pre ++ [nr]
      ∧ pre.length = retryDB2.requests.length
      ∧ nr.prjid = BENTWOOKIE_PROJECT_ID
      ∧ nr.reqtype = "bug_fix"
      ∧ nr.reqphase = "plan"
      ∧ nr.reqstatus = "tbd"
      ∧ nr.reqpriority = 3
      ∧ nr.reqpriority < DEFAULT_PRIORITY)
    ∧ (process_request retryDB2 testEnv 50 0 retryView2
        (.error "HTTP 429: too many requests")).db.requests.length
      = retryDB2.requests.length := by
  constructor
  · exact (C6_terminal_failures_escalate_once retryDB2 testEnv 50 0 retryView2
      .timeout).1 (Or.inr (Or.inr (Or.inl ⟨⟨rfl, by decide⟩, rfl⟩)))
  · exact (C6_terminal_failures_escalate_once retryDB2 testEnv 50 0 retryView2
      (.error "HTTP 429: too many requests")).2 "HTTP 429: too many requests"
      ⟨rfl, by decide⟩ rfl (by decide)

/-- `lexLt` unpacked to arithmetic. -/
theorem lexLt_iff (a b : ReqView) :
    lexLt a b = true ↔ (a.reqpriority < b.reqpriority ∨
      (a.reqpriority = b.reqpriority ∧ a.reqtouchts < b.reqtouchts)) := by
  simp [lexLt, Bool.or_eq_true, Bool.and_eq_true, decide_eq_true_eq,
    beq_iff_eq]

/-- The negation of `lexLt`, unpacked to arithmetic. -/
theorem lexLt_false_iff (a b : ReqView) :
    lexLt a b = false ↔ (b.reqpriority < a.reqpriority ∨
      (a.reqpriority = b.reqpriority ∧ b.reqtouchts ≤ a.reqtouchts)) := by
  rw [Bool.eq_false_iff, ne_eq, lexLt_iff]
  constructor <;> intro h <;> omega

/-- `lexLt` is irreflexive. -/
theorem lexLt_self (a : ReqView) : lexLt a a = false := by
  rw [lexLt_false_iff]; omega

/-- `v` precedes `b`, and `v` does not precede `m`: then `b` does not precede
`m`. -/
theorem lexLt_chain1 {v b m : ReqView} (h1 : lexLt v b = true)
    (h2 : lexLt v m = false) : lexLt b m = false := by
  rw [lexLt_iff] at h1
  rw [lexLt_false_iff] at h2 ⊢
  omega

/-- `v` does not precede `b`, `b` does not precede `m`: then `v` does not
precede `m`. -/
theorem lexLt_chain2 {v b m : ReqView} (h1 : lexLt v b = false)
    (h2 : lexLt b m = false) : lexLt v m = false := by
  rw [lexLt_false_iff] at h1 h2 ⊢
  omega

/-- The `pickMin` fold started at `some b` returns a row from `{b} ∪ l` that
no row of `{b} ∪ l` strictly precedes. -/
theorem foldl_pickMinStep_some (l : List ReqView) :
    ∀ b : ReqView, ∃ m, l.foldl pickMinStep (some b) = some m
      ∧ (m = b ∨ m ∈ l) ∧ lexLt b m = false ∧ ∀ v ∈ l, lexLt v m = false := by
  induction l with
  | nil =>
    intro b
    exact ⟨b, rfl, Or.inl rfl, lexLt_self b, fun v hv => absurd hv
      (List.not_mem_nil v)⟩
  | cons v t ih =>
    intro b
    by_cases hvb : lexLt v b = true
    · obtain ⟨m, hm, hmem, hb', hall⟩ := ih v
      refine ⟨m, ?_, ?_, lexLt_chain1 hvb hb', ?_⟩
      · rw [List.foldl_cons]
        rw [show pickMinStep (some b) v = some v by simp [pickMinStep, hvb]]
        exact hm
      · rcases hmem with h | h
        · exact Or.inr (h ▸ List.mem_cons_self v t)
        · exact Or.inr (List.mem_cons_of_mem _ h)
      · intro u hu
        rcases List.mem_cons.mp hu with h | h
        · exact h ▸ hb'
        · exact hall u h
    · have hvb' : lexLt v b = false := by simpa using hvb
      obtain ⟨m, hm, hmem, hb', hall⟩ := ih b
      refine ⟨m, ?_, ?_, hb', ?_⟩
      · rw [List.foldl_cons]
        rw [show pickMinStep (some b) v = some b by simp [pickMinStep, hvb']]
        exact hm
      · rcases hmem with h | h
        · exact Or.inl h
        · exact Or.inr (List.mem_cons_of_mem _ h)
      · intro u hu
        rcases List.mem_cons.mp hu with h | h
        · exact h ▸ lexLt_chain2 hvb' hb'
        · exact hall u h

/-- When `pickMin` returns a row, that row belongs to the candidates and no
candidate strictly precedes it. -/
theorem pickMin_spec {l : List ReqView} {m : ReqView}
    (h : pickMin l = some m) :
    m ∈ l ∧ ∀ v ∈ l, lexLt v m = false := by
  cases l with
  | nil => cases h
  | cons v t =>
    obtain ⟨m', hm', hmem, hb, hall⟩ := foldl_pickMinStep_some t v
    rw [pickMin, List.foldl_cons] at h
    rw [show pickMinStep none v = some v from rfl, hm'] at h
    injection h with h
    subst h
    constructor
    · rcases hmem with h | h
      · exact h ▸ List.mem_cons_self v t
      · exact List.mem_cons_of_mem _ h
    · intro u hu
      rcases List.mem_cons.mp hu with h | h
      · exact h ▸ hb
      · exact hall u h

/-- Membership in the candidate rows of `get_next_request`: exactly the `tbd`
requests whose owning project exists, joined into views. -/
theorem mem_next_request_cands {db : DB} {x : ReqView} :
    x ∈ db.requests.filterMap (fun r =>
        if r.reqstatus == "tbd" then
          (get_project db r.prjid).map (fun p => mkReqView r p)
        else none)
      ↔ ∃ r ∈ db.requests, ∃ p, r.reqstatus = "tbd"
          ∧ get_project db r.prjid = some p ∧ x = mkReqView r p := by
  rw [List.mem_filterMap]
  constructor
  · rintro ⟨r, hr, hfr⟩
    by_cases hs : (r.reqstatus == "tbd") = true
    · rw [if_pos hs] at hfr
      cases hp : get_project db r.prjid with
      | none => rw [hp] at hfr; cases hfr
      | some p =>
        rw [hp] at hfr
        simp at hfr
        exact ⟨r, hr, p, by simpa using hs, hp, hfr.symm⟩
    · rw [if_neg hs] at hfr; cases hfr
  · rintro ⟨r, hr, p, hs, hp, hx⟩
    exact ⟨r, hr, by simp [hs, hp, hx]⟩

/-- C7: `get_next_request` returns none when no `tbd` request exists; and
when it returns a row, that row is a `tbd` request joined with its owning
project's name, phase, and default code directory, and no other `tbd` request
with an owning project has a lower priority number or — at equal priority —
an older touched timestamp. -/
theorem C7_next_request_selection (db : DB) :
    ((∀ r ∈ db.requests, ¬ r.reqstatus = "tbd") →
      get_next_request db = none)
    ∧ ∀ v, get_next_request db = some v →
        (∃ r ∈ db.requests, ∃ p, r.reqstatus = "tbd"
          ∧ get_project db r.prjid = some p ∧ v = mkReqView r p)
        ∧ ∀ r ∈ db.requests, r.reqstatus = "tbd" →
            ∀ p, get_project db r.prjid = some p →
              (v.reqpriority < r.reqpriority ∨
                (v.reqpriority = r.reqpriority ∧
                  v.reqtouchts ≤ r.reqtouchts)) := by
  constructor
  · intro h
    rw [get_next_request]
    have hnil : db.requests.filterMap (fun r =>
        if r.reqstatus == "tbd" then
          (get_project db r.prjid).map (fun p => mkReqView r p)
        else none) = [] := by
      rw [List.filterMap_eq_nil_iff]
      intro r hr
      rw [if_neg]
      simpa using h r hr
    rw [hnil]
    rfl
  · intro v hv
    rw [get_next_request] at hv
    obtain ⟨hmem, hall⟩ := pickMin_spec hv
    refine ⟨mem_next_request_cands.mp hmem, ?_⟩
    intro r hr hs p hp
    have hmem2 := mem_next_request_cands.mpr ⟨r, hr, p, hs, hp, rfl⟩
    have hlt := hall _ hmem2
    rw [lexLt_false_iff] at hlt
    rw [show (mkReqView r p).reqpriority = r.reqpriority from rfl,
        show (mkReqView r p).reqtouchts = r.reqtouchts from rfl] at hlt
    omega

/-- A store with no pending request at all. -/
def idleDB : DB :=
  { projects := [⟨1, "proj", "poc", 5, "qa", none, some "/code", none, 0⟩],
    requests :=
      [⟨4, 1, "d", "p", "new_feature", "done", "complete", 1, 0, none, none,
        none, 1⟩],
    infrastructure := [],
    request_infrastructure := [],
    learnings := [],
    nextReqId := 5,
    nextLrnId := 1 }

/-- A store with three pending requests: priorities 5, 3, 3; the two
priority-3 rows are told apart by their touched timestamps 20 and 5. -/
def queueDB : DB :=
  { projects := [⟨1, "proj", "poc", 5, "qa", none, some "/code", none, 0⟩],
    requests :=
      [⟨1, 1, "a", "p", "new_feature", "tbd", "plan", 5, 0, none, none, none,
        10⟩,
       ⟨2, 1, "b", "p", "new_feature", "tbd", "plan", 3, 0, none, none, none,
        20⟩,
       ⟨3, 1, "c", "p", "new_feature", "tbd", "plan", 3, 0, none, none, none,
        5⟩,
       ⟨4, 1, "d", "p", "new_feature", "done", "complete", 1, 0, none, none,
        none, 1⟩],
    infrastructure := [],
    request_infrastructure := [],
    learnings := [],
    nextReqId := 5,
    nextLrnId := 1 }

/-- Witness for C7: on `idleDB` no `tbd` row exists and the selector returns
none; on `queueDB` the selector's result (request 3: priority 3, oldest
touched timestamp 5) is a `tbd` request joined with its project. -/
theorem C7_witness :
    get_next_request idleDB = none
    ∧ (∃ r ∈ queueDB.requests, ∃ p, r.reqstatus = "tbd"
        ∧ get_project queueDB r.prjid = some p
        ∧ (⟨3, 1, "c", "p", "new_feature", "tbd", "plan", 3, 0, none, none,
            none, 5, "proj", "qa", some "/code"⟩ : ReqView) = mkReqView r p) := by
  constructor
  · exact (C7_next_request_selection idleDB).1 (by decide)
  · exact (((C7_next_request_selection queueDB).2
      ⟨3, 1, "c", "p", "new_feature", "tbd", "plan", 3, 0, none, none, none,
        5, "proj", "qa", some "/code"⟩) (by decide)).1

/-- `reset_request_test_retries` rewrites exactly the looked-up row. -/
theorem get_request_after_reset {db : DB} {now reqid : Nat}
    {r : RequestRow} (h : get_request db reqid = some r) :
    get_request (reset_request_test_retries db now reqid).1 reqid
      = some {r with reqtestretries := 0, reqtouchts := now} := by
  have hmap := get_request_mapRequestRow db reqid
    (fun r => {r with reqtestretries := 0, reqtouchts := now}) (fun _ => rfl)
  simp only [reset_request_test_retries]
  rw [hmap, h]
  rfl

/-- The store for the C9 counterexample: one project-infrastructure row and
one request-infrastructure row, both last touched at time 5. -/
def infraTouchDB : DB :=
  { projects := [⟨1, "proj", "poc", 5, "dev", none, none, none, 5⟩],
    requests :=
      [⟨10, 1, "r", "p", "new_feature", "tbd", "plan", 5, 0, none, none,
        none, 5⟩],
    infrastructure := [⟨100, 1, "compute", "local", none, none, 5⟩],
    request_infrastructure := [⟨200, 10, "storage", "local", none, none, 5⟩],
    learnings := [],
    nextReqId := 11,
    nextLrnId := 1 }

/-- C9 as stated is false: `update_infrastructure` and
`update_request_infrastructure` modify their row (the provider changes from
`local` to `aws`) without refreshing any touched timestamp — the two updates
take no timestamp at all, and the rows' timestamps remain 5. -/
theorem C9_counterexample :
    (update_infrastructure infraTouchDB 100 (some "aws") none
        none).1.infrastructure
      = [⟨100, 1, "compute", "aws", none, none, 5⟩]
    ∧ (update_request_infrastructure infraTouchDB 200 (some "aws") none
        none).1.request_infrastructure
      = [⟨200, 10, "storage", "aws", none, none, 5⟩] := by
  decide

/-- C9 (amended): every update or status/phase/error/retry change on a
project or request row refreshes the touched timestamp on the row it
modifies; updates to infrastructure and request-infrastructure rows, by
contrast, modify the row without refreshing any touched timestamp. -/
theorem C9_touch_refresh (db : DB) (now : Nat) :
    (∀ prjid nm p, get_project db prjid = some p →
      get_project (update_project db now prjid (some nm) none none none none
          none).1 prjid
        = some {p with prjname := nm, prjtouchts := now})
    ∧ (∀ reqid s r, get_request db reqid = some r →
        get_request (update_request_status db now reqid s).1 reqid
          = some {r with reqstatus := s, reqtouchts := now})
    ∧ (∀ reqid e r, get_request db reqid = some r →
        get_request (update_request_error db now reqid e).1 reqid
          = some {r with reqerror := e, reqtouchts := now})
    ∧ (∀ reqid ph r, get_request db reqid = some r →
        get_request (update_request_phase db now reqid ph).1 reqid
          = some {r with reqphase := ph, reqtouchts := now})
    ∧ (∀ reqid r, get_request db reqid = some r →
        get_request (increment_request_test_retries db now reqid).1 reqid
          = some {r with reqtestretries := r.reqtestretries + 1,
                         reqtouchts := now})
    ∧ (∀ reqid r, get_request db reqid = some r →
        get_request (reset_request_test_retries db now reqid).1 reqid
          = some {r with reqtestretries := 0, reqtouchts := now})
    ∧ (∀ reqid nm r, get_request db reqid = some r →
        get_request (update_request db now reqid (some nm) none none none
            none).1 reqid
          = some {r with reqname := nm, reqtouchts := now})
    ∧ (∀ infid pr i,
        db.infrastructure.find? (fun x => x.infid == infid) = some i →
        (update_infrastructure db infid (some pr) none
            none).1.infrastructure.find? (fun x => x.infid == infid)
          = some {i with infprovider := pr})
    ∧ (∀ rinfid pr i,
        db.request_infrastructure.find? (fun x => x.rinfid == rinfid)
          = some i →
        (update_request_infrastructure db rinfid (some pr) none
            none).1.request_infrastructure.find?
            (fun x => x.rinfid == rinfid)
          = some {i with infprovider := pr}) := by
  refine ⟨?_, ?_, ?_, ?_, ?_, ?_, ?_, ?_, ?_⟩
  · intro prjid nm p h
    have hm := find?_map_if (fun x : ProjectRow => x.prjid == prjid)
      (fun x => {x with prjname := nm, prjtouchts := now}) (fun _ => rfl)
      db.projects
    simp only [get_project] at h
    rw [h] at hm
    exact hm
  · intro reqid s r h
    exact get_request_after_status h
  · intro reqid e r h
    exact get_request_after_error h
  · intro reqid ph r h
    exact get_request_after_phase h
  · intro reqid r h
    exact get_request_after_increment h
  · intro reqid r h
    exact get_request_after_reset h
  · intro reqid nm r h
    have hm := find?_map_if (fun x : RequestRow => x.reqid == reqid)
      (fun x => {x with reqname := nm, reqtouchts := now}) (fun _ => rfl)
      db.requests
    simp only [get_request] at h
    rw [h] at hm
    exact hm
  · intro infid pr i h
    have hm := find?_map_if (fun x : InfraRow => x.infid == infid)
      (fun x => {x with infprovider := pr}) (fun _ => rfl) db.infrastructure
    rw [h] at hm
    exact hm
  · intro rinfid pr i h
    have hm := find?_map_if (fun x : ReqInfraRow => x.rinfid == rinfid)
      (fun x => {x with infprovider := pr}) (fun _ => rfl)
      db.request_infrastructure
    rw [h] at hm
    exact hm

/-- Witness for the amended C9 at a concrete store and time 42. -/
theorem C9_witness :
    get_project (update_project infraTouchDB 42 1 (some "renamed") none none
        none none none).1 1
      = some ⟨1, "renamed", "poc", 5, "dev", none, none, none, 42⟩
    ∧ get_request (update_request_status infraTouchDB 42 10 "wip").1 10
      = some ⟨10, 1, "r", "p", "new_feature", "wip", "plan", 5, 0, none, none,
          none, 42⟩
    ∧ get_request (increment_request_test_retries infraTouchDB 42 10).1 10
      = some ⟨10, 1, "r", "p", "new_feature", "tbd", "plan", 5, 1, none, none,
          none, 42⟩
    ∧ (update_infrastructure infraTouchDB 100 (some "gcp") none
        none).1.infrastructure.find? (fun x => x.infid == 100)
      = some ⟨100, 1, "compute", "gcp", none, none, 5⟩ := by
  have h := C9_touch_refresh infraTouchDB 42
  exact ⟨h.1 1 "renamed" ⟨1, "proj", "poc", 5, "dev", none, none, none, 5⟩
      (by decide),
    h.2.1 10 "wip" ⟨10, 1, "r", "p", "new_feature", "tbd", "plan", 5, 0,
      none, none, none, 5⟩ (by decide),
    h.2.2.2.2.1 10 ⟨10, 1, "r", "p", "new_feature", "tbd", "plan", 5, 0,
      none, none, none, 5⟩ (by decide),
    h.2.2.2.2.2.2.2.1 100 "gcp" ⟨100, 1, "compute", "local", none, none, 5⟩
      (by decide)⟩

/-- Witness for C5 at a concrete store, time 100, and a rate-limit error
message: cooldown deadline 160, request 7 requeued as `tbd`, no escalation
request filed, rate-limited now and no longer at time 160. -/
theorem C5_witness :
    (process_request retryDB2 testEnv 100 0 retryView2
        (.error "Error: request rate limit exceeded")).rate_limited_until
      = 160
    ∧ get_request (process_request retryDB2 testEnv 100 0 retryView2
        (.error "Error: request rate limit exceeded")).db 7
      = some ⟨7, 1, "r", "p", "new_feature", "tbd", "test", 5, 2, none, none,
          none, 100⟩
    ∧ (process_request retryDB2 testEnv 100 0 retryView2
        (.error "Error: request rate limit exceeded")).db.requests.length = 1
    ∧ (process_request retryDB2 testEnv 100 0 retryView2
        (.error "Error: request rate limit exceeded")).success = false
    ∧ is_rate_limited 100 (process_request retryDB2 testEnv 100 0 retryView2
        (.error "Error: request rate limit exceeded")).rate_limited_until
      = true
    ∧ is_rate_limited 160 (process_request retryDB2 testEnv 100 0 retryView2
        (.error "Error: request rate limit exceeded")).rate_limited_until
      = false := by
  have h := C5_rate_limit_requeues_without_escalation retryDB2 testEnv 100 0
    retryView2 "Error: request rate limit exceeded"
    ⟨7, 1, "r", "p", "new_feature", "wip", "test", 5, 2, none, none, none, 0⟩
    rfl (by decide) (by decide) (by decide)
  exact ⟨h.1, h.2.1, h.2.2.1, h.2.2.2.1, h.2.2.2.2.1,
    h.2.2.2.2.2 160 (by decide)⟩
